import Mathlib

/-!
Verification of the image/video utility module `src/modules/utils.py` of the
PSL_recognition repository, as a shallow embedding in Lean 4.

Modelling choices:
* An `Image` mirrors a numpy `ndarray`: the shape (`height`, `width`) is
  carried explicitly, the pixel contents are a list of rows of pixels, and a
  pixel is a list of channel values.
* External library calls are modelled as explicit inputs: `cv2.imread`
  becomes a decode function `imread : String → Option Image`; the mediapipe
  holistic detector becomes `holistic : Image → Results`.
* Python exceptions become `Except Err`; side effects (file writes, drawn
  overlays) become explicit components of the returned value.
-/

/-- A pixel: the list of its channel values (BGR order for opened images). -/
def Pixel : Type := List Nat

deriving instance DecidableEq for Pixel

/-- An in-memory image, mirroring a numpy array: the shape is explicit and
the data holds the rows of pixels. -/
structure Image where
  height : Nat
  width : Nat
  data : List (List Pixel)
deriving DecidableEq

/-- The error kinds the module can raise: the four custom exception classes
from `src.modules.custom_exceptions`, plus Python's `TypeError` and
`ValueError` raised directly in `utils.py`. -/
inductive Err where
  | pathToImageIsIncorrect
  | imageNotExists
  | typeError
  | valueError
  | pathToVideoIsIncorrect
  | cameraIndexIsIncorrect
deriving DecidableEq

/-- The possible runtime values of the `source` argument of `open_img`:
a string path, an in-memory array, Python's `None`, or a value of any
other type. -/
inductive Source where
  | path (s : String)
  | arr (img : Image)
  | null
  | other
deriving DecidableEq

/-- Embedding of `open_img` (utils.py lines 14-35). The `isinstance` chain
becomes a match on the runtime kind of `source`; `cv2.imread` is the
parameter `imread`. -/
def open_img (imread : String → Option Image) : Source → Except Err Image
  | Source.path s =>
      match imread s with
      | Option.none => Except.error Err.pathToImageIsIncorrect
      | Option.some img => Except.ok img
  | Source.arr img => Except.ok img
  | Source.null => Except.error Err.imageNotExists
  | Source.other => Except.error Err.typeError

/-- Pixel lookup with out-of-range access giving an empty pixel; used only
inside the model of `cv2.resize`. -/
def Image.pixelAt (img : Image) (y x : Nat) : Pixel :=
  (img.data.getD y []).getD x ([] : List Nat)

/-- Model of `cv2.resize(img, (w, h))`: an external library call, modelled
by its contract that the output image has exactly the requested shape; the
INTER_AREA resampling is abstracted as coordinate sampling from the input. -/
def cvResize (img : Image) (w h : Nat) : Image :=
  { height := h
    width := w
    data := (List.range h).map fun y =>
      (List.range w).map fun x =>
        img.pixelAt (y * img.height / h) (x * img.width / w) }

/-- Embedding of `rescale_img` (utils.py lines 52-71). The factor check
comes first; Python's `int(shape * factor / 100)` on nonnegative values is
truncating division, i.e. `Nat` division after clamping the factor. -/
def rescale_img (imread : String → Option Image) (source : Source)
    (rescale_factor : Int) : Except Err Image :=
  if rescale_factor ≤ 0 then
    Except.error Err.valueError
  else
    match open_img imread source with
    | Except.error e => Except.error e
    | Except.ok img =>
        let width := img.width * rescale_factor.toNat / 100
        let height := img.height * rescale_factor.toNat / 100
        Except.ok (cvResize img width height)

/-- Model of `np.flip(img, axis=1)`: reverse every row; the shape is
unchanged. -/
def npFlipAxis1 (img : Image) : Image :=
  { img with data := img.data.map List.reverse }

/-- Embedding of `img_mirror` (utils.py lines 236-253). The optional
`destination_path` defaults to `None`; `if destination_path:` is Python
truthiness, so the write happens exactly for a non-empty string. The write
effect is returned as the list of (path, image) pairs written. -/
def img_mirror (imread : String → Option Image) (source : Source)
    (destination_path : Option String) : Except Err (Image × List (String × Image)) :=
  match open_img imread source with
  | Except.error e => Except.error e
  | Except.ok img =>
      let img_mirrored := npFlipAxis1 img
      let writes :=
        match destination_path with
        | Option.some p => if p = "" then [] else [(p, img_mirrored)]
        | Option.none => []
      Except.ok (img_mirrored, writes)

/-- A detected landmark list: the list of detected keypoints. -/
def Landmarks : Type := List (Nat × Nat)

deriving instance DecidableEq for Landmarks

/-- The fields of the mediapipe holistic result object that
`detect_and_draw_landmarks` reads; each is `None` when not detected. -/
structure Results where
  pose_landmarks : Option Landmarks
  left_hand_landmarks : Option Landmarks
  right_hand_landmarks : Option Landmarks
deriving DecidableEq

/-- The kinds of overlay that `detect_and_draw_landmarks` can draw. -/
inductive Overlay where
  | pose
  | leftHand
  | rightHand
deriving DecidableEq

/-- Embedding of `detect_and_draw_landmarks` (utils.py lines 173-233) after
the detector has run: `results` is the holistic output on `img`. All three
`draw.draw_landmarks` calls sit inside `if results.pose_landmarks:`; a call
with a `None` landmark list is a no-op (mediapipe returns immediately), so a
hand overlay is drawn only when its landmarks are present. The drawing
effect is returned as the list of overlays drawn on the returned image. -/
def detect_and_draw_landmarks (results : Results) (img : Image) :
    Image × List Overlay :=
  if results.pose_landmarks.isSome then
    (img,
      [Overlay.pose]
        ++ (if results.left_hand_landmarks.isSome then [Overlay.leftHand] else [])
        ++ (if results.right_hand_landmarks.isSome then [Overlay.rightHand] else []))
  else
    (img, [])

/-- Model of `cv2.cvtColor(img, cv2.COLOR_BGR2RGB)`: reverse the channel
order of every pixel; the shape is unchanged. -/
def cvtColorBGR2RGB (img : Image) : Image :=
  { img with data := img.data.map (List.map List.reverse) }

/-- The per-frame step of `drawing_points_video` (utils.py lines 111-116):
convert the frame to RGB, then detect and draw landmarks on it. -/
def frameStep (holistic : Image → Results) (img : Image) : Image × List Overlay :=
  let img_rgb := cvtColorBGR2RGB img
  detect_and_draw_landmarks (holistic img_rgb) img_rgb

/-- The possible runtime values of the `source` argument of
`drawing_points_video`: a video path or a camera index. -/
inductive VSource where
  | path (s : String)
  | cam (i : Int)
deriving DecidableEq

/-- The video device behind `cv2.VideoCapture(source)`: whether the capture
opens, and the sequence of `cap.read()` results (`none` is a failed read). -/
structure Device where
  opened : Bool
  reads : List (Option Image)

/-- The `while cap.isOpened()` loop body of `drawing_points_video` (utils.py
lines 106-121): read a frame, break on the first failed read, otherwise
apply the per-frame step and continue. -/
def videoLoop (step : Image → Image × List Overlay) :
    List (Option Image) → List (Image × List Overlay)
  | [] => []
  | Option.none :: _ => []
  | Option.some img :: rest => step img :: videoLoop step rest

/-- Embedding of `drawing_points_video` (utils.py lines 74-123). On a failed
open, the raised error depends on whether `source` is a string. On success,
the result carries the processed frames and the final released state of the
capture handle; the function never calls `cap.release()`, so it is `false`. -/
def drawing_points_video (holistic : Image → Results) (dev : Device)
    (source : VSource) : Except Err (List (Image × List Overlay) × Bool) :=
  if dev.opened = false then
    match source with
    | VSource.path _ => Except.error Err.pathToVideoIsIncorrect
    | VSource.cam _ => Except.error Err.cameraIndexIsIncorrect
  else
    Except.ok (videoLoop (frameStep holistic) dev.reads, false)

/-- A concrete 2 by 3 image used by witnesses. -/
def imgA : Image :=
  { height := 2
    width := 3
    data := [[[1, 2, 3], [4, 5, 6], [7, 8, 9]],
             [[10, 11, 12], [13, 14, 15], [16, 17, 18]]] }

/-- A concrete decode function used by witnesses: decodes exactly the path
"good.png". -/
def imreadA : String → Option Image :=
  fun s => if s = "good.png" then Option.some imgA else Option.none

/-- C1: for any source image of height h and width w and any factor f > 0,
`rescale_img` returns an image of height int(h * f / 100) and
width int(w * f / 100); in particular factor 50 halves both dimensions with
integer truncation. -/
theorem rescale_img_dims (imread : String → Option Image) (img : Image)
    (f : Int) (hf : 0 < f) :
    ∃ r, rescale_img imread (Source.arr img) f = Except.ok r ∧
      r.height = img.height * f.toNat / 100 ∧
      r.width = img.width * f.toNat / 100 ∧
      (f = 50 → r.height = img.height / 2 ∧ r.width = img.width / 2) := by
  refine ⟨cvResize img (img.width * f.toNat / 100) (img.height * f.toNat / 100), ?_, rfl, rfl, ?_⟩
  · have hnot : ¬ f ≤ 0 := not_le.mpr hf
    simp [rescale_img, open_img, hnot]
  · rintro rfl
    have h50 : (50 : Int).toNat = 50 := rfl
    constructor <;> · simp only [cvResize, h50]; omega

/-- Witness for C1 at a concrete 2 by 3 image and factor 50. -/
theorem rescale_img_dims_witness :
    ∃ r, rescale_img imreadA (Source.arr imgA) 50 = Except.ok r ∧
      r.height = imgA.height * (50 : Int).toNat / 100 ∧
      r.width = imgA.width * (50 : Int).toNat / 100 ∧
      ((50 : Int) = 50 → r.height = imgA.height / 2 ∧ r.width = imgA.width / 2) :=
  rescale_img_dims imreadA imgA 50 (by decide)

/-- C2: on a string path, `open_img` raises `PathToImageIsIncorrectError`
exactly when the decode result is null, and otherwise returns the decoded
array. -/
theorem open_img_path_iff (imread : String → Option Image) (s : String) :
    (open_img imread (Source.path s) = Except.error Err.pathToImageIsIncorrect ↔
      imread s = Option.none) ∧
    (∀ img, imread s = Option.some img →
      open_img imread (Source.path s) = Except.ok img) := by
  constructor
  · cases h : imread s <;> simp [open_img, h]
  · intro img h
    simp [open_img, h]

/-- Witness for C2 at a concrete decode function, exercising both a path
that decodes and a path that does not. -/
theorem open_img_path_iff_witness :
    open_img imreadA (Source.path "good.png") = Except.ok imgA ∧
    (open_img imreadA (Source.path "bad.png") = Except.error Err.pathToImageIsIncorrect ↔
      imreadA "bad.png" = Option.none) :=
  ⟨(open_img_path_iff imreadA "good.png").2 imgA (by decide),
    (open_img_path_iff imreadA "bad.png").1⟩

/-- C3: mirroring an image twice (no destination path) returns the original
image element for element. -/
theorem img_mirror_involutive (imread : String → Option Image) (img : Image) :
    ∃ m, img_mirror imread (Source.arr img) Option.none = Except.ok (m, []) ∧
      img_mirror imread (Source.arr m) Option.none = Except.ok (img, []) := by
  refine ⟨npFlipAxis1 img, rfl, ?_⟩
  have h : npFlipAxis1 (npFlipAxis1 img) = img := by
    cases img with
    | mk h w d =>
        simp [npFlipAxis1, List.map_map, Function.comp_def]
  simp [img_mirror, open_img, h]

/-- A concrete detection result with left-hand landmarks present but pose
landmarks absent. -/
def resultsLeftOnly : Results :=
  { pose_landmarks := Option.none
    left_hand_landmarks := Option.some [(1, 1)]
    right_hand_landmarks := Option.none }

/-- A concrete detection result with pose and left-hand landmarks present
and right-hand landmarks absent. -/
def resultsPoseLeft : Results :=
  { pose_landmarks := Option.some [(0, 0)]
    left_hand_landmarks := Option.some [(1, 1)]
    right_hand_landmarks := Option.none }

/-- C4 counterexample: with left-hand landmarks present but pose landmarks
absent, `detect_and_draw_landmarks` draws no left-hand overlay (it draws
nothing at all), contradicting the claim that each present result gets an
overlay. -/
theorem detect_draw_present_counterexample :
    resultsLeftOnly.left_hand_landmarks.isSome = true ∧
    Overlay.leftHand ∉ (detect_and_draw_landmarks resultsLeftOnly imgA).2 ∧
    (detect_and_draw_landmarks resultsLeftOnly imgA).2 = [] := by
  decide

/-- C4 amended: `detect_and_draw_landmarks` draws overlays only when pose
landmarks are present: then it draws the pose overlay and an overlay for
each present hand; when pose landmarks are absent (in particular when no
results are present) it returns the frame with no overlay drawn. -/
theorem detect_draw_pose_gated (r : Results) (img : Image) :
    (Overlay.pose ∈ (detect_and_draw_landmarks r img).2 ↔
      r.pose_landmarks.isSome = true) ∧
    (Overlay.leftHand ∈ (detect_and_draw_landmarks r img).2 ↔
      r.pose_landmarks.isSome = true ∧ r.left_hand_landmarks.isSome = true) ∧
    (Overlay.rightHand ∈ (detect_and_draw_landmarks r img).2 ↔
      r.pose_landmarks.isSome = true ∧ r.right_hand_landmarks.isSome = true) ∧
    (r.pose_landmarks = Option.none → (detect_and_draw_landmarks r img).2 = []) := by
  rcases r with ⟨p, l, rh⟩
  cases p <;> cases l <;> cases rh <;>
    simp [detect_and_draw_landmarks]

/-- Witness for C4 amended at a concrete result with pose and left hand
present: both corresponding overlays are drawn. -/
theorem detect_draw_pose_gated_witness :
    Overlay.pose ∈ (detect_and_draw_landmarks resultsPoseLeft imgA).2 ∧
    Overlay.leftHand ∈ (detect_and_draw_landmarks resultsPoseLeft imgA).2 :=
  ⟨(detect_draw_pose_gated resultsPoseLeft imgA).1.mpr (by decide),
    (detect_draw_pose_gated resultsPoseLeft imgA).2.1.mpr (by decide)⟩

/-- C5: for every source of any runtime kind and every factor at most zero,
`rescale_img` raises `ValueError`; the result does not depend on the source
or on the decode function, so the source is never inspected. -/
theorem rescale_img_nonpositive_factor (imread : String → Option Image)
    (source : Source) (f : Int) (hf : f ≤ 0) :
    rescale_img imread source f = Except.error Err.valueError := by
  simp [rescale_img, hf]

/-- Witness for C5 at factor 0 and a source that is neither a string nor an
array. -/
theorem rescale_img_nonpositive_factor_witness :
    rescale_img imreadA Source.other 0 = Except.error Err.valueError :=
  rescale_img_nonpositive_factor imreadA Source.other 0 (by decide)

/-- C6: `open_img` called with `None` raises `ImageNotExistsError`. -/
theorem open_img_null_raises (imread : String → Option Image) :
    open_img imread Source.null = Except.error Err.imageNotExists :=
  rfl

/-- A constant holistic detector used by witnesses: never detects anything. -/
def holisticA : Image → Results :=
  fun _ => { pose_landmarks := Option.none
             left_hand_landmarks := Option.none
             right_hand_landmarks := Option.none }

/-- C7: when the capture fails to open, `drawing_points_video` raises
`PathToVideoIsIncorrectError` for a string source and `CameraIndexIsIncorrect`
for a camera-index source; when the capture opens, it raises neither error
and returns normally. -/
theorem drawing_points_video_open_errors (holistic : Image → Results)
    (dev : Device) (src : VSource) :
    (dev.opened = false →
      drawing_points_video holistic dev src =
        Except.error (match src with
          | VSource.path _ => Err.pathToVideoIsIncorrect
          | VSource.cam _ => Err.cameraIndexIsIncorrect)) ∧
    (dev.opened = true →
      ∃ out, drawing_points_video holistic dev src = Except.ok out) := by
  constructor
  · intro h
    cases src <;> simp [drawing_points_video, h]
  · intro h
    exact ⟨(videoLoop (frameStep holistic) dev.reads, false),
      by simp [drawing_points_video, h]⟩

/-- Witness for C7: a closed capture with a path source and with a camera
source, and an open capture. -/
theorem drawing_points_video_open_errors_witness :
    drawing_points_video holisticA ⟨false, []⟩ (VSource.path "v.mp4") =
      Except.error Err.pathToVideoIsIncorrect ∧
    drawing_points_video holisticA ⟨false, []⟩ (VSource.cam 0) =
      Except.error Err.cameraIndexIsIncorrect ∧
    ∃ out, drawing_points_video holisticA ⟨true, []⟩ (VSource.cam 0) =
      Except.ok out :=
  ⟨(drawing_points_video_open_errors holisticA ⟨false, []⟩ (VSource.path "v.mp4")).1 rfl,
    (drawing_points_video_open_errors holisticA ⟨false, []⟩ (VSource.cam 0)).1 rfl,
    (drawing_points_video_open_errors holisticA ⟨true, []⟩ (VSource.cam 0)).2 rfl⟩

/-- C8: `img_mirror` with a non-empty destination path returns the mirrored
image and writes exactly that mirrored image to exactly that path; with no
destination path it returns the mirrored image and performs no write. -/
theorem img_mirror_write_effect (imread : String → Option Image) (img : Image)
    (p : String) (hp : p ≠ "") :
    img_mirror imread (Source.arr img) (Option.some p) =
      Except.ok (npFlipAxis1 img, [(p, npFlipAxis1 img)]) ∧
    img_mirror imread (Source.arr img) Option.none =
      Except.ok (npFlipAxis1 img, []) := by
  constructor
  · simp [img_mirror, open_img, hp]
  · rfl

/-- Witness for C8 at a concrete image and the path "out.png". -/
theorem img_mirror_write_effect_witness :
    img_mirror imreadA (Source.arr imgA) (Option.some "out.png") =
      Except.ok (npFlipAxis1 imgA, [("out.png", npFlipAxis1 imgA)]) ∧
    img_mirror imreadA (Source.arr imgA) Option.none =
      Except.ok (npFlipAxis1 imgA, []) :=
  img_mirror_write_effect imreadA imgA "out.png" (by decide)

/-- C9: once the capture opens, `drawing_points_video` processes the frames
read before the first failed read by mapping the same per-frame step over
them (so frame outputs are independent and no state is carried across
frames), terminates there ignoring everything after the failed read, and
returns with the capture handle not released. -/
theorem drawing_points_video_per_frame (holistic : Image → Results)
    (src : VSource) (frames : List Image) (rest : List (Option Image))
    (dev : Device) (hopen : dev.opened = true)
    (hreads : dev.reads = frames.map Option.some ++ Option.none :: rest) :
    drawing_points_video holistic dev src =
      Except.ok (frames.map (frameStep holistic), false) := by
  have hloop : ∀ fs : List Image,
      videoLoop (frameStep holistic) (fs.map Option.some ++ Option.none :: rest) =
        fs.map (frameStep holistic) := by
    intro fs
    induction fs with
    | nil => rfl
    | cons f fs ih => simp [videoLoop, ih]
  simp [drawing_points_video, hopen, hreads, hloop]

/-- Witness for C9: an open capture with two good frames, then a failed
read, then a further stale frame that is never processed. -/
theorem drawing_points_video_per_frame_witness :
    drawing_points_video holisticA
      ⟨true, [Option.some imgA, Option.some (npFlipAxis1 imgA), Option.none,
              Option.some imgA]⟩ (VSource.cam 0) =
      Except.ok ([imgA, npFlipAxis1 imgA].map (frameStep holisticA), false) :=
  drawing_points_video_per_frame holisticA (VSource.cam 0)
    [imgA, npFlipAxis1 imgA] [Option.some imgA]
    ⟨true, [Option.some imgA, Option.some (npFlipAxis1 imgA), Option.none,
            Option.some imgA]⟩ rfl rfl

/-- C10: `open_img` returns an in-memory array source as that very array,
unchanged and unvalidated (including an empty array); `None` is rejected
with `ImageNotExistsError` and a non-string non-array value with
`TypeError`. -/
theorem open_img_array_passthrough (imread : String → Option Image) (img : Image) :
    open_img imread (Source.arr img) = Except.ok img ∧
    open_img imread (Source.arr ⟨0, 0, []⟩) = Except.ok ⟨0, 0, []⟩ ∧
    open_img imread Source.null = Except.error Err.imageNotExists ∧
    open_img imread Source.other = Except.error Err.typeError :=
  ⟨rfl, rfl, rfl, rfl⟩
